import Mathlib

/-!
Verification development for the `cs_agreement_closing` repository.

The Python modules under `src/server` are shallowly embedded:

  * `src/server/engine/vbo2.py`   → namespace `VBO2`
  * `src/server/engine/va02.py`   → namespace `VA02`
  * `src/server/engine/so01.py`   → namespace `SO01`
  * `src/server/engine/controller.py` and `src/server/svc.py` → namespace `Controller`

The SAP GUI is a stateful external system driven turn by turn; each embedded
operation therefore takes an explicit environment record describing the
responses the external system gives at the decision points the code actually
branches on (dialog presence and texts, status-bar texts, parsed amounts,
statuses, document numbers).  Module-level session globals (`_sess`, ...)
collapse to an `Option Unit` state ("bound" or not), threaded explicitly.
Python exceptions become `Except PyError`; SAP money amounts (Python floats
obtained from `_convert_amount`) are modelled as `Rat`; the `json` library
round-trip through a batch file is modelled as the identity on the stored
record, with the durable `data/` directory modelled as an association list
from batch id to record.
-/

/-- Severity levels of the Python `logging` calls that appear in the code. -/
inductive LogLevel where
  | info
  | warning
  | error
  | critical
deriving DecidableEq

/-- One emitted log line: its level and its text. -/
structure LogEntry where
  level : LogLevel
  text : String
deriving DecidableEq

/-- The Python exceptions raised by the embedded code.  `transactionClosed`
is `TransactionClosedError`, `unboundSession` is the `UnboundLocalError`
raised by the three `start` procedures, `assertionError` is a failed bare
`assert` (as in `_get_dialog_text`), and the remaining constructors carry
the exception message. -/
inductive PyError where
  | transactionClosed
  | unboundSession
  | assertionError
  | authorizationMissing (msg : String)
  | runtimeError (msg : String)
  | valueError (msg : String)
  | typeError (msg : String)
  | fileNotFound (msg : String)
deriving DecidableEq

/-- Python `str(exc)` for the errors above.  A bare `AssertionError` prints
as the empty string; `TransactionClosedError` and `UnboundLocalError` carry
the fixed messages from the source. -/
def pyMsg : PyError → String
  | .transactionClosed => "Attempt to perform an operation on a closed trasnsaction!"
  | .unboundSession => "Argument \x27sess\x27 is unbound!"
  | .assertionError => ""
  | .authorizationMissing m => m
  | .runtimeError m => m
  | .valueError m => m
  | .typeError m => m
  | .fileNotFound m => m

deriving instance DecidableEq for Except

/-- Does the character list `n` occur as a leading block of `h`? -/
def listStarts : List Char → List Char → Bool
  | [], _ => true
  | _ :: _, [] => false
  | a :: as, b :: bs => a == b && listStarts as bs

/-- Does the character list `n` occur contiguously anywhere inside `h`? -/
def listHasSub (n : List Char) : List Char → Bool
  | [] => n.isEmpty
  | b :: bs => listStarts n (b :: bs) || listHasSub n bs

/-- Python's substring test `needle in hay` for strings. -/
def pyIn (needle hay : String) : Bool :=
  listHasSub needle.toList hay.toList

/-- Python `str.isnumeric` restricted to the ASCII digits the code feeds it. -/
def pyIsNumeric (s : String) : Bool :=
  s.length != 0 && s.toList.all Char.isDigit

/-- Python `str.zfill`: left-pad with zeros up to width `w`. -/
def zfill (w : Nat) (s : String) : String :=
  if w ≤ s.length then s
  else String.mk (List.replicate (w - s.length) '0') ++ s

/-- Python's builtin `max` on two numbers (kept executable on `Rat`). -/
def pyMax (a b : Rat) : Rat :=
  if a < b then b else a

/-- Python's builtin `abs` (kept executable on `Rat`). -/
def pyAbs (a : Rat) : Rat :=
  if a < 0 then -a else a


namespace VBO2

/-- Responses of the external system at the decision points of one
`settle_agreement` run (module `vbo2.py`).

  * `markedForDeletion` / `notCurrent`: whether `_find` sees the
    "is marked for deletion" resp. "is not current" pop-up (the source
    checks the second only when the first is absent).
  * `markedDeclineWindow` / `notCurrentWindow`: the text of the window
    active when `_find` re-reads `_sess.ActiveWindow` on the corresponding
    early-exit path; `none` means that window is not modal, so the
    `assert` in `_get_dialog_text` fails.
  * `statBarFindMsg`: `_stat_bar.Text` classified by `_find`.
  * `openValue` / `openAccruals`: amounts from `_get_sales_volumes`.
  * `agreementStatus`: the `KONA-BOSTA` field.
  * `memoNumber` / `memoMsg`: outcome of `_get_document_number("memo")`.
  * `scalesChecked`: outcome of `_scales_checked()`.
  * `statBarAfterSettle`: `_stat_bar.text` after `_press_settle()`.
  * `settleDialog`: the modal shown after settling (`none` = no modal).
  * `requestNumber`: number found by `_get_document_number("request")`.
  * `settleDialog2`: the modal text after confirming a
    "see next warning message" dialog (`none` = no modal). -/
structure Env where
  markedForDeletion : Bool
  notCurrent : Bool
  markedDeclineWindow : Option String
  notCurrentWindow : Option String
  statBarFindMsg : String
  openValue : Rat
  openAccruals : Rat
  agreementStatus : String
  memoNumber : Option Int
  memoMsg : String
  scalesChecked : Bool
  statBarAfterSettle : String
  settleDialog : Option String
  requestNumber : Option Int
  settleDialog2 : Option String
deriving DecidableEq

/-- The `result` dict returned by `vbo2.settle_agreement`. -/
structure SettlementResult where
  open_value : Option Rat
  open_accruals : Option Rat
  document_number : Option Int
  document_type : Option String
  message : Option String
  message_type : Option String
deriving DecidableEq

/-- What Python's `_find` actually returns: a `(msg_type, msg)` tuple on the
normal paths, but a bare dialog-text string on the two early-exit dialog
paths (source lines 246 and 253). -/
inductive FindResult where
  | pair (msgType msg : String)
  | text (s : String)
deriving DecidableEq

/-- The `messages` keyword table of `_find` (insertion order preserved). -/
def find_messages : List (String × List String) :=
  [("W", ["Only display is possible"]),
   ("E", ["does not exist", "cannot be processed", "already being processed"])]

/-- The status-bar classification loop at the end of `_find`. -/
def classify_status (status_msg : String) : String × String :=
  match find_messages.findSome?
      (fun p => if p.2.any (fun kwd => pyIn kwd status_msg) then some (p.1, status_msg) else none) with
  | some r => r
  | none => ("I", "Agreement found and opened.")

/-- Embedding of `vbo2._find`.  Reading the active window on an early-exit
path goes through `_get_dialog_text`, whose `assert` fails when that window
is not modal. -/
def find (env : Env) (accept_inactive_accs accept_outdated_vols : Bool) :
    Except PyError FindResult :=
  if env.markedForDeletion then
    if accept_inactive_accs then
      .ok (.pair (classify_status env.statBarFindMsg).1 (classify_status env.statBarFindMsg).2)
    else
      match env.markedDeclineWindow with
      | none => .error .assertionError
      | some t => .ok (.text t)
  else if env.notCurrent then
    if accept_outdated_vols then
      .ok (.pair (classify_status env.statBarFindMsg).1 (classify_status env.statBarFindMsg).2)
    else
      match env.notCurrentWindow with
      | none => .error .assertionError
      | some t => .ok (.text t)
  else
    .ok (.pair (classify_status env.statBarFindMsg).1 (classify_status env.statBarFindMsg).2)

/-- The threshold clamp from `settle_agreement` line 540:
`thresh = max(0.01, thresh)`. -/
def effective_threshold (thresh : Rat) : Rat :=
  pyMax (mkRat 1 100) thresh

/-- The body of `settle_agreement` after the `_find` result has been
unpacked, with the threshold already clamped (the clamp itself sits in
`settle_after_find`; the source applies it between the value gate and the
threshold gate, and no earlier step reads the threshold). -/
def settle_core (env : Env) (th : Rat) (msg_type msg : String) :
    Except PyError SettlementResult :=
  let result0 : SettlementResult :=
    { open_value := none, open_accruals := none, document_number := none,
      document_type := none, message := none, message_type := none }
  if msg_type ≠ "I" then
    let r1 := { result0 with message := some msg, message_type := some msg_type }
    if msg_type = "W" then
      .ok { r1 with
              open_value := some env.openValue,
              open_accruals := some env.openAccruals,
              document_type := some "credit_memo",
              document_number := env.memoNumber,
              message := some (msg ++ " " ++ env.memoMsg),
              message_type := some msg_type }
    else
      .ok r1
  else
    let r1 := { result0 with
                  open_value := some env.openValue,
                  open_accruals := some env.openAccruals }
    if env.agreementStatus = "C" ∨ env.agreementStatus = "D" then
      .ok { r1 with
              document_type := some "credit_memo",
              document_number := env.memoNumber,
              message_type := some "E",
              message := some ("The agreement status \x27" ++ env.agreementStatus ++
                "\x27 does not permit creating the final settlement! " ++ env.memoMsg) }
    else if env.openValue ≠ 0 then
      .ok { r1 with
              message := some "Could not settle the agreement! Open value is not 0 EUR.",
              message_type := some "E" }
    else if pyAbs env.openAccruals ≥ th ∧ ¬env.scalesChecked then
      .ok { r1 with
              message_type := some "E",
              message := some ("Could not settle the agreement! The provision open value " ++
                "is under the specified threshold " ++ toString th ++
                " EUR and scales are unchecked!") }
    else
      let r2 :=
        if env.statBarAfterSettle = "Function code cannot be selected" then
          { r1 with
              message_type := some "E",
              message := some "The \x27Create Final Settlement ...\x27 button not found!" }
        else r1
      if (match env.settleDialog with
          | some t => pyIn "A credit memo request was created for settlement" t
          | none => false) then
        .ok { r2 with
                document_type := some "memo_request",
                document_number := env.requestNumber,
                message := some "Agreement successfully settled.",
                message_type := some "I" }
      else
        match env.settleDialog with
        | none => .error .assertionError
        | some t =>
          if pyIn "see next warning message" t then
            match env.settleDialog2 with
            | none => .error .assertionError
            | some t2 => .ok { r2 with message_type := some "E", message := some t2 }
          else
            .ok { r2 with message_type := some "E", message := some t }

/-- `settle_agreement` after `_find`, still taking the raw threshold; the
clamp `max(0.01, thresh)` is applied exactly once, as in the source. -/
def settle_after_find (env : Env) (thresh : Rat) (msg_type msg : String) :
    Except PyError SettlementResult :=
  settle_core env (effective_threshold thresh) msg_type msg

/-- Embedding of `vbo2.start`: a no-op when the module session is already
bound, `UnboundLocalError` on a null handle, else binds the session. -/
def start (st : Option Unit) (sess : Option Unit) : Except PyError (Option Unit) :=
  if st.isSome then .ok st
  else if sess.isNone then .error .unboundSession
  else .ok (some ())

/-- Embedding of `vbo2.close`: always leaves the module session unbound. -/
def close (_st : Option Unit) : Option Unit := none

/-- Embedding of `vbo2.settle_agreement`.  The unpacking
`msg_type, msg = _find(...)` succeeds on a tuple; on a bare string it is
Python sequence unpacking, which only succeeds when the string has exactly
two characters and otherwise raises `ValueError`. -/
def settle_agreement (st : Option Unit) (env : Env) (_num : Int) (thresh : Rat)
    (accept_inactive_accs : Bool) (accept_outdated_vols : Bool) :
    Except PyError SettlementResult :=
  if st = none then .error .transactionClosed
  else
    match find env accept_inactive_accs accept_outdated_vols with
    | .error e => .error e
    | .ok (.pair msg_type msg) => settle_after_find env thresh msg_type msg
    | .ok (.text s) =>
      if s.length = 2 then settle_after_find env thresh (s.take 1) (s.drop 1)
      else if s.length > 2 then .error (.valueError "too many values to unpack (expected 2)")
      else .error (.valueError "not enough values to unpack (expected 2)")

end VBO2

namespace VA02

/-- One modal shown while `_open_order` drains its `while _is_popup_dialog()`
loop: the two benign patterns are confirmed, anything else is fatal. -/
inductive Dialog where
  | blockedStatus
  | deliveryBlock
  | other (txt : String)
deriving DecidableEq

/-- Responses of the external system during one `change_sales_order` run
(module `va02.py`).

  * `statBarMsgType` / `statBarText`: the status bar after searching for the
    order (consulted by `_is_error_message`).
  * `dialogs`: the successive modals `_open_order` sees in its drain loop.
  * `fileExists`: whether the file handed to `_attach_file` exists.
  * `attachUIWorks`: whether the attachments toolbar interaction succeeds. -/
structure Env where
  statBarMsgType : String
  statBarText : String
  dialogs : List Dialog
  fileExists : Bool
  attachUIWorks : Bool
deriving DecidableEq

/-- The `while _is_popup_dialog()` loop of `_open_order`: benign dialogs are
confirmed, an unknown one raises `RuntimeError` with its text. -/
def resolve_dialogs : List Dialog → Except PyError Unit
  | [] => .ok ()
  | .blockedStatus :: rest => resolve_dialogs rest
  | .deliveryBlock :: rest => resolve_dialogs rest
  | .other txt :: _ => .error (.runtimeError txt)

/-- Embedding of `va02._open_order` (the "marked for deletion" dialog is
auto-dismissed and has no further effect on the result). -/
def open_order (env : Env) (_num : Int) : Except PyError Unit :=
  if env.statBarMsgType = "E" ∧ pyIn "No authorization for maintaining" env.statBarText then
    .error (.authorizationMissing env.statBarText)
  else if env.statBarMsgType = "E" then
    .error (.runtimeError env.statBarText)
  else
    resolve_dialogs env.dialogs

/-- The per-approver validation loop of `change_sales_order`: the first id
that is not an 8-digit numeral raises `ValueError`. -/
def check_approvers : List String → Except PyError Unit
  | [] => .ok ()
  | app :: rest =>
    if ¬(pyIsNumeric app ∧ app.length = 8) then
      .error (.valueError ("Invalid approver ID used: " ++ app ++ "!"))
    else check_approvers rest

/-- Embedding of `va02._attach_file`: distinguishes a missing file from an
unavailable attachments UI (both after a defensive save). -/
def attach_file (env : Env) (file_path : String) : Except PyError Unit :=
  if ¬env.fileExists then
    .error (.fileNotFound ("File \x27" ++ file_path ++ "\x27 doesn\x27t exist!"))
  else if ¬env.attachUIWorks then
    .error (.runtimeError ("Failed to open attachments list! Possible cause: The " ++
      "\x27Attachments\x27 button is completely missing from the transaction toolbar " ++
      "or an incorrect path to an existing GUI object is used. " ++
      "All previous changes have been saved."))
  else .ok ()

/-- Embedding of `va02.start`: same shape as `vbo2.start`. -/
def start (st : Option Unit) (sess : Option Unit) : Except PyError (Option Unit) :=
  if st.isSome then .ok st
  else if sess.isNone then .error .unboundSession
  else .ok (some ())

/-- Embedding of `va02.close`: always leaves the module session unbound. -/
def close (_st : Option Unit) : Option Unit := none

/-- Embedding of `va02.change_sales_order`.  The closed-transaction guard
comes first, then the 9-digit order-number validation, then the
"all optional arguments are None" no-op short-circuit; an approver list is
only validated (and only applied) when it has more than one entry. -/
def change_sales_order (st : Option Unit) (env : Env) (num : Int)
    (print_invoice : Option Bool) (approvers : Option (List String))
    (att_path : Option String) : Except PyError Unit :=
  if st = none then .error .transactionClosed
  else if ¬(pyIsNumeric (toString num) ∧ (toString num).length = 9) then
    .error (.valueError ("Invalid order number used: " ++ toString num ++ "!"))
  else if print_invoice = none ∧ approvers = none ∧ att_path = none then
    .ok ()
  else
    match open_order env num with
    | .error e => .error e
    | .ok _ =>
      match (match approvers with
             | some l => if l.length > 1 then check_approvers l else .ok ()
             | none => .ok ()) with
      | .error e => .error e
      | .ok _ =>
        match (match att_path with
               | some p => attach_file env p
               | none => .ok ()) with
        | .error e => .error e
        | .ok _ => .ok ()

end VA02

namespace SO01

/-- One row of the SO01 workflow-item list.  `displayed` is the text
`GetCellValue` returns at first; when it is blank the row is selected,
which makes the external system populate it, and `realized` is the text
read back afterwards. -/
structure Row where
  displayed : String
  realized : String
deriving DecidableEq

/-- The title `process_workflow` actually compares: the displayed text, or
the realized text when the displayed one is blank. -/
def effTitle (row : Row) : String :=
  if row.displayed = "" then row.realized else row.displayed

/-- Embedding of `so01.start`: same shape as `vbo2.start`. -/
def start (st : Option Unit) (sess : Option Unit) : Except PyError (Option Unit) :=
  if st.isSome then .ok st
  else if sess.isNone then .error .unboundSession
  else .ok (some ())

/-- Embedding of `so01.close`: always leaves the module session unbound. -/
def close (_st : Option Unit) : Option Unit := none

/-- Embedding of `so01.get_item_table`: the only SO01 operation guarded by
the closed-transaction check; on an open session it hands back the current
workflow-item list (supplied by the environment). -/
def get_item_table (st : Option Unit) (items : List Row) :
    Except PyError (List Row) :=
  if st = none then .error .transactionClosed
  else .ok items

/-- Embedding of `so01.process_workflow`.  The source performs no
closed-transaction check here: it scans the rows, and only on the first
matching row touches the module globals (`_user_area`, `_sess`), which are
`None` on a closed session, so Python would raise an `AttributeError`
there; with no matching row it returns `False` even when closed. -/
def process_workflow (st : Option Unit) (items : List Row) (kwd : String) :
    Except PyError Bool :=
  match items with
  | [] => .ok false
  | row :: rest =>
    if ¬pyIn kwd (effTitle row) then process_workflow st rest kwd
    else
      match st with
      | none => .error (.typeError "NoneType has no attribute FindById")
      | some _ => .ok true

end SO01

namespace Controller

/-- The on-disk content of one batch file (`controller._create_batch_file`):
`{country, company_code, credit_memos}`. -/
structure BatchRecord where
  country : String
  company_code : String
  credit_memos : List Int
deriving DecidableEq

/-- The durable `data/` directory: batch id → file content.  The JSON
encode/decode performed by the `json` library is modelled as the identity
on the record. -/
def Store := List (Nat × BatchRecord)

instance : DecidableEq Store := fun a b => List.hasDecEq a b

/-- `os.path.isfile` on the path `_compile_batch_path(i)`. -/
def isfile (store : Store) (i : Nat) : Bool :=
  (store.lookup i).isSome

/-- Largest batch id present in the directory (0 when empty). -/
def maxKey (store : Store) : Nat :=
  store.foldr (fun p m => max p.1 m) 0

/-- Rewrite the whole file for batch id `i` (as `json.dump` over an opened
`"w"` stream does): any previous entry for `i` is replaced. -/
def write (store : Store) (i : Nat) (rec : BatchRecord) : Store :=
  (i, rec) :: store.filter (fun p => p.1 ≠ i)

/-- The scanning loop of `_create_batch_file`: starting from `n`, walk
upward while a file exists.  Fuel-indexed so that it reduces; the fuel
chosen in `create_batch_file` always suffices because `maxKey store + 1`
is never an existing id. -/
def first_free_go (store : Store) : Nat → Nat → Nat
  | 0, n => n
  | fuel + 1, n => if isfile store n then first_free_go store fuel (n + 1) else n

/-- The filename stem `batch_XYZ` used by `_compile_batch_path` and by
`load_data_batches` when keying the loaded dict. -/
def batch_name (i : Nat) : String :=
  "batch_" ++ zfill 3 (toString i)

/-- Embedding of `controller._create_batch_file`: scan for the first unused
batch id starting at 1, then write a fresh record with an empty
`credit_memos` list; returns the new id and the updated directory. -/
def create_batch_file (store : Store) (country cocd : String) : Nat × Store :=
  let nth := first_free_go store (maxKey store + 1) 1
  (nth, write store nth { country := country, company_code := cocd, credit_memos := [] })

/-- Embedding of `controller._update_batch_data`: read the batch file,
append the credit memo number, rewrite the whole file.  A missing file
makes the `open` call raise. -/
def update_batch_data (store : Store) (batch_id : Nat) (memo : Int) :
    Except PyError Store :=
  match store.lookup batch_id with
  | none => .error (.fileNotFound ("No such file or directory: " ++ batch_name batch_id))
  | some content =>
    .ok (write store batch_id { content with credit_memos := content.credit_memos ++ [memo] })

/-- Embedding of `controller.load_data_batches`: read every batch file and
key its content by the filename stem. -/
def load_data_batches (store : Store) : List (String × BatchRecord) :=
  store.map (fun p => (batch_name p.1, p.2))

/-- Embedding of `controller.remove_data_batch`: delete the file with the
given name; a failing `os.remove` (no such file) is caught and logged.
Note the source logs the success message with `log.error` as well. -/
def remove_data_batch (store : Store) (name : String) : Store × List LogEntry :=
  let store2 := store.filter (fun p => batch_name p.1 ≠ name)
  if store2.length = store.length then
    (store, [⟨.info, "Removing data batch file ..."⟩,
             ⟨.error, "No such file or directory: " ++ name⟩])
  else
    (store2, [⟨.info, "Removing data batch file ..."⟩,
              ⟨.error, "Data batch file removed."⟩])

/-- The `for nth, num in enumerate(nums, start=1)` loop of
`finalize_workflow`, producing the emitted log lines.  A found item logs
an info line, a missing one logs at ERROR level. -/
def process_nums (st : Option Unit) (items : List SO01.Row) (total : Nat) :
    Nat → List Int → Except PyError (List LogEntry)
  | _, [] => .ok []
  | nth, num :: rest =>
    let kwd := toString num
    let head : LogEntry :=
      ⟨.info, "Processing workflow item (" ++ toString nth ++ " of " ++ toString total ++
        ") related to order: " ++ toString num ++ " ..."⟩
    match SO01.process_workflow st items kwd with
    | .error e => .error e
    | .ok true =>
      match process_nums st items total (nth + 1) rest with
      | .error e => .error e
      | .ok ls => .ok (head :: ⟨.info, "Workflow item processed."⟩ :: ls)
    | .ok false =>
      match process_nums st items total (nth + 1) rest with
      | .error e => .error e
      | .ok ls =>
        .ok (head :: ⟨.error, "Workflow item not found using key: \x27" ++ kwd ++ "\x27!"⟩ :: ls)

/-- Embedding of `controller.finalize_workflow`: start SO01, fetch the item
table, process every credit memo number in stored order, close SO01.
Returns the SO01 module state after the call and the emitted log lines. -/
def finalize_workflow (st : Option Unit) (sess : Option Unit)
    (items : List SO01.Row) (nums : List Int) :
    Except PyError (Option Unit × List LogEntry) :=
  match SO01.start st sess with
  | .error e => .error e
  | .ok st1 =>
    match SO01.get_item_table st1 items with
    | .error e => .error e
    | .ok tbl =>
      match process_nums st1 tbl nums.length 1 nums with
      | .error e => .error e
      | .ok ls =>
        .ok (SO01.close st1,
          ⟨.info, "Starting SO01 ..."⟩ :: ⟨.info, "SO01 running."⟩ ::
            (ls ++ [⟨.info, "Closing SO01 ..."⟩, ⟨.info, "SO01 closed."⟩]))

/-- The processing phase of `svc.main`: iterate the loaded batches, run
`finalize_workflow` on each, then delete its file; the first escaping
exception stops the loop (return code 3), recorded as the third component.
The SO01 module state is `none` at each loop head because the previous
`finalize_workflow` closed the transaction. -/
def svcRun (sess : Option Unit) (items : List SO01.Row) :
    List (String × BatchRecord) → Store → Store × List LogEntry × Option PyError
  | [], store => (store, [], none)
  | (name, data) :: rest, store =>
    let head : LogEntry := ⟨.info, "=== Processing data batch \x27" ++ name ++ "\x27 ==="⟩
    match finalize_workflow none sess items data.credit_memos with
    | .error e => (store, [head], some e)
    | .ok (_, flogs) =>
      let r := remove_data_batch store name
      let t := svcRun sess items rest r.1
      (t.1, head :: (flogs ++ r.2 ++ ⟨.info, "=== Data batch processed ==="⟩ :: t.2.1), t.2.2)

/-- One output row of `process_agreements` (the columns assigned per item). -/
structure OutputRow where
  Agreement : Int
  Open_Value : Option Rat
  Open_Accruals : Option Rat
  Credit_Memo : Option Int
  Message : Option String
deriving DecidableEq

/-- The external responses consumed while processing one work item: the
settlement session's responses and the order-amendment session's. -/
structure ItemEnv where
  vbo2 : VBO2.Env
  va02 : VA02.Env
deriving DecidableEq

/-- The controller's outer `except Exception` handler: dump the partial
results and re-raise as `RuntimeError("Unhandled exception: ...")`. -/
def fatal {α : Type} (e : PyError) : Except PyError α :=
  .error (.runtimeError ("Unhandled exception: " ++ pyMsg e))

/-- Embedding of the per-item block of `controller.process_agreements`
(source lines 450-514).  Settlement is invoked with
`accept_inactive_accs = True` and `accept_outdated_vols` left at its
default `False`.  On a `CreditMemoRequest` outcome the VBO2 session is
closed, VA02 is started, the amendment is attempted with any exception
caught and appended to the row message, VA02 is closed, and the document
number is appended to the run's batch file.  Any other escaping exception
aborts the run through `fatal`. -/
def process_item (sess vbo2St va02St : Option Unit) (env : ItemEnv) (agt : Int)
    (thresh : Rat) (approvers : List String) (att_path : String)
    (batch_idx : Nat) (store : Store) :
    Except PyError (Option Unit × Option Unit × OutputRow × Store) :=
  match VBO2.start vbo2St sess with
  | .error e => fatal e
  | .ok v1 =>
    match VBO2.settle_agreement v1 env.vbo2 agt thresh true false with
    | .error e => fatal e
    | .ok result =>
      let row : OutputRow :=
        { Agreement := agt, Open_Value := result.open_value,
          Open_Accruals := result.open_accruals,
          Credit_Memo := result.document_number, Message := result.message }
      match result.document_number with
      | none => .ok (v1, va02St, row, store)
      | some d =>
        if result.document_type = some "credit_memo" then
          .ok (v1, va02St, row, store)
        else
          let v2 := VBO2.close v1
          match VA02.start va02St sess with
          | .error e => fatal e
          | .ok a1 =>
            match VA02.change_sales_order a1 env.va02 d (some false)
                (some approvers) (some att_path) with
            | .ok _ =>
              let a2 := VA02.close a1
              match update_batch_data store batch_idx d with
              | .error e => fatal e
              | .ok store2 => .ok (v2, a2, row, store2)
            | .error exc =>
              match row.Message with
              | none => fatal (.typeError "unsupported operand type(s) for +=")
              | some msgtxt =>
                let row2 := { row with
                  Message := some (msgtxt ++ "Error changing the sales order! " ++ pyMsg exc) }
                let a2 := VA02.close a1
                match update_batch_data store batch_idx d with
                | .error e => fatal e
                | .ok store2 => .ok (v2, a2, row2, store2)

end Controller

/-! ## Concrete environments used by witnesses and counterexamples -/

/-- A settlement run in which everything goes smoothly: no locate dialogs,
an unclassified (hence Info) status-bar text, zero open value and accruals,
an open agreement status, and a successful settle dialog yielding credit
memo request 900000123. -/
def sampleSettleEnv : VBO2.Env :=
  { markedForDeletion := false, notCurrent := false,
    markedDeclineWindow := none, notCurrentWindow := none,
    statBarFindMsg := "ok", openValue := 0, openAccruals := 0,
    agreementStatus := "B", memoNumber := some 900000001, memoMsg := "",
    scalesChecked := true, statBarAfterSettle := "x",
    settleDialog := some "A credit memo request was created for settlement.",
    requestNumber := some 900000123, settleDialog2 := none }

/-- An amendment run in which opening the order fails with a
"No authorization for maintaining" status-bar error. -/
def authFailVA02Env : VA02.Env :=
  { statBarMsgType := "E",
    statBarText := "No authorization for maintaining sales document 900000123",
    dialogs := [], fileExists := true, attachUIWorks := true }

/-- An amendment run with no obstacles at all. -/
def plainVA02Env : VA02.Env :=
  { statBarMsgType := "S", statBarText := "ok", dialogs := [],
    fileExists := true, attachUIWorks := true }

/-! ## Helper lemmas -/

theorem pyMax_eq_max (a b : Rat) : pyMax a b = max a b := by
  unfold pyMax
  rcases lt_or_le a b with h | h
  · simp [h, max_eq_right h.le]
  · simp [not_lt.mpr h, max_eq_left h]

theorem pyAbs_eq_abs (a : Rat) : pyAbs a = |a| := by
  unfold pyAbs
  rcases lt_or_le a 0 with h | h
  · simp [h, abs_of_neg h]
  · simp [not_lt.mpr h, abs_of_nonneg h]

/-! ## Claim theorems -/

/-- C7 (counterexample): the claim says invoking a domain operation on a
Closed session always raises `TransactionClosed`, for all three sessions;
but `so01.process_workflow` performs no closed-session check: invoked on a
closed session with a keyword matching no row it returns `False` normally
instead of raising. -/
theorem c7_counterexample :
    SO01.process_workflow none [] "777" = Except.ok false ∧
    SO01.process_workflow none [] "777" ≠ Except.error PyError.transactionClosed := by
  decide

/-- C7 (amended): the settlement (`vbo2.settle_agreement`) and
order-amendment (`va02.change_sales_order`) domain operations raise
`TransactionClosedError` whenever the session is Closed; for the
workflow-item session the guard sits on `so01.get_item_table`, while
`so01.process_workflow` itself performs no closed check and returns
`False` on a closed session when no row matches. -/
theorem c7_amended :
    (∀ (env : VBO2.Env) (num : Int) (t : Rat) (a b : Bool),
      VBO2.settle_agreement none env num t a b = Except.error PyError.transactionClosed)
    ∧ (∀ (env : VA02.Env) (num : Int) (p : Option Bool) (ap : Option (List String))
        (fp : Option String),
      VA02.change_sales_order none env num p ap fp = Except.error PyError.transactionClosed)
    ∧ (∀ items : List SO01.Row,
      SO01.get_item_table none items = Except.error PyError.transactionClosed)
    ∧ (∀ kwd : String, SO01.process_workflow none [] kwd = Except.ok false) := by
  refine ⟨fun env num t a b => rfl, fun env num p ap fp => rfl, fun items => rfl,
    fun kwd => rfl⟩

/-- C8 (counterexample): the claim says `start` fails with `UnboundSession`
whenever it is given a null handle; but in all three modules the
"already running" no-op check precedes the null-handle check, so `start`
on an already-open session with a null handle succeeds as a no-op. -/
theorem c8_counterexample :
    VBO2.start (some ()) none = Except.ok (some ()) ∧
    VA02.start (some ()) none = Except.ok (some ()) ∧
    SO01.start (some ()) none = Except.ok (some ()) ∧
    VBO2.start (some ()) none ≠ Except.error PyError.unboundSession := by
  decide

/-- C8 (amended): for each of the three sessions, `start` is idempotent
(a no-op returning the already-bound state when the session is Open, even
with a null handle), raises the `UnboundLocalError` ("unbound session")
exactly when the session is Closed and the handle is null, and succeeds
on any state when given a live handle. -/
theorem c8_amended :
    (∀ sess : Option Unit, VBO2.start (some ()) sess = Except.ok (some ())) ∧
    VBO2.start none none = Except.error PyError.unboundSession ∧
    (∀ sess : Option Unit, VA02.start (some ()) sess = Except.ok (some ())) ∧
    VA02.start none none = Except.error PyError.unboundSession ∧
    (∀ sess : Option Unit, SO01.start (some ()) sess = Except.ok (some ())) ∧
    VBO2.start none (some ()) = Except.ok (some ()) ∧
    VA02.start none (some ()) = Except.ok (some ()) ∧
    SO01.start none (some ()) = Except.ok (some ()) ∧
    SO01.start none none = Except.error PyError.unboundSession := by
  refine ⟨fun sess => rfl, rfl, fun sess => rfl, rfl, fun sess => rfl, rfl, rfl, rfl, rfl⟩

theorem effective_threshold_idem (t : Rat) :
    VBO2.effective_threshold (VBO2.effective_threshold t) = VBO2.effective_threshold t := by
  unfold VBO2.effective_threshold pyMax
  split_ifs <;> rfl

theorem settle_after_find_thresh_congr (env : VBO2.Env) (t t2 : Rat) (mt m : String)
    (h : VBO2.effective_threshold t = VBO2.effective_threshold t2) :
    VBO2.settle_after_find env t mt m = VBO2.settle_after_find env t2 mt m := by
  unfold VBO2.settle_after_find
  rw [h]

theorem settle_agreement_thresh_congr (st : Option Unit) (env : VBO2.Env) (num : Int)
    (a b : Bool) (t t2 : Rat)
    (h : VBO2.effective_threshold t = VBO2.effective_threshold t2) :
    VBO2.settle_agreement st env num t a b = VBO2.settle_agreement st env num t2 a b := by
  unfold VBO2.settle_agreement
  rcases hf : VBO2.find env a b with e | fr
  · rfl
  · cases fr with
    | pair mt m => simp [settle_after_find_thresh_congr env t t2 _ _ h]
    | text s => simp [settle_after_find_thresh_congr env t t2 _ _ h]

theorem settle_threshold_abort (env : VBO2.Env) (t : Rat) (m : String)
    (hC : env.agreementStatus ≠ "C") (hD : env.agreementStatus ≠ "D")
    (hv : env.openValue = 0)
    (ha : pyAbs env.openAccruals ≥ VBO2.effective_threshold t)
    (hs : env.scalesChecked = false) :
    VBO2.settle_after_find env t "I" m =
      Except.ok { open_value := some env.openValue, open_accruals := some env.openAccruals,
                  document_number := none, document_type := none,
                  message_type := some "E",
                  message := some ("Could not settle the agreement! The provision open value " ++
                    "is under the specified threshold " ++ toString (VBO2.effective_threshold t) ++
                    " EUR and scales are unchecked!") } := by
  unfold VBO2.settle_after_find VBO2.settle_core
  simp [hC, hD, hv, ha, hs]

theorem rat_centi_pos : (0 : Rat) < mkRat 1 100 := by
  rw [Rat.mkRat_eq_div]
  norm_num

/-- C2: the threshold actually compared against the open accruals by
`settle_agreement` is `max(t, 0.01)`: the settlement result is unchanged
when the supplied threshold is replaced by its clamp; for `t ≤ 0` the
effective threshold is exactly `0.01` — never `t` and never `0` — and the
result is the same as with threshold `0.01`; and when the locate, status
and value gates pass, accruals at or above `max(t, 0.01)` with unchecked
scales abort with the threshold error citing the clamped value. -/
theorem c2_threshold_clamp (st : Option Unit) (env : VBO2.Env) (num : Int)
    (a b : Bool) (t : Rat) :
    VBO2.settle_agreement st env num t a b
      = VBO2.settle_agreement st env num (max t (mkRat 1 100)) a b
    ∧ VBO2.effective_threshold t = max t (mkRat 1 100)
    ∧ (t ≤ 0 →
        VBO2.effective_threshold t = mkRat 1 100
        ∧ VBO2.effective_threshold t ≠ t
        ∧ VBO2.effective_threshold t ≠ 0
        ∧ VBO2.settle_agreement st env num t a b
            = VBO2.settle_agreement st env num (mkRat 1 100) a b)
    ∧ (∀ m : String, env.agreementStatus ≠ "C" → env.agreementStatus ≠ "D" →
        env.openValue = 0 → pyAbs env.openAccruals ≥ max t (mkRat 1 100) →
        env.scalesChecked = false →
        VBO2.settle_after_find env t "I" m =
          Except.ok { open_value := some env.openValue,
                      open_accruals := some env.openAccruals,
                      document_number := none, document_type := none,
                      message_type := some "E",
                      message := some ("Could not settle the agreement! The provision open value " ++
                        "is under the specified threshold " ++
                        toString (max t (mkRat 1 100)) ++
                        " EUR and scales are unchecked!") }) := by
  have hmax : VBO2.effective_threshold t = max t (mkRat 1 100) := by
    unfold VBO2.effective_threshold
    rw [pyMax_eq_max, max_comm]
  refine ⟨?_, hmax, ?_, ?_⟩
  · exact settle_agreement_thresh_congr st env num a b t _
      (by rw [← hmax, effective_threshold_idem])
  · intro ht
    have heff : VBO2.effective_threshold t = mkRat 1 100 := by
      unfold VBO2.effective_threshold pyMax
      rw [if_neg (not_lt.mpr (ht.trans rat_centi_pos.le))]
    refine ⟨heff, ?_, ?_, ?_⟩
    · rw [heff]
      intro hc
      have := rat_centi_pos
      linarith
    · rw [heff]
      exact (ne_of_gt rat_centi_pos)
    · refine settle_agreement_thresh_congr st env num a b t _ ?_
      rw [heff]
      unfold VBO2.effective_threshold pyMax
      rw [if_neg (lt_irrefl _)]
  · intro m hC hD hv ha hs
    have h2 := settle_threshold_abort env t m hC hD hv (by rw [hmax]; exact ha) hs
    rw [h2, hmax]

/-- A settlement run that reaches the threshold gate with accruals of 50
and unchecked scales. -/
def thresholdEnv : VBO2.Env :=
  { sampleSettleEnv with openAccruals := 50, scalesChecked := false }

/-- C2 (witness): the clamp theorem applied at the concrete threshold `-5`
and at a concrete run aborting on the threshold gate. -/
theorem c2_threshold_clamp_witness :
    (VBO2.effective_threshold (-5) = mkRat 1 100
      ∧ VBO2.settle_agreement (some ()) sampleSettleEnv 5001 (-5) true false
          = VBO2.settle_agreement (some ()) sampleSettleEnv 5001 (mkRat 1 100) true false)
    ∧ VBO2.settle_after_find thresholdEnv 40 "I" "m" =
        Except.ok { open_value := some thresholdEnv.openValue,
                    open_accruals := some thresholdEnv.openAccruals,
                    document_number := none, document_type := none,
                    message_type := some "E",
                    message := some ("Could not settle the agreement! The provision open value " ++
                      "is under the specified threshold " ++
                      toString (max (40 : Rat) (mkRat 1 100)) ++
                      " EUR and scales are unchecked!") } :=
  ⟨⟨((c2_threshold_clamp (some ()) sampleSettleEnv 5001 true false (-5)).2.2.1
      (by norm_num)).1,
    ((c2_threshold_clamp (some ()) sampleSettleEnv 5001 true false (-5)).2.2.1
      (by norm_num)).2.2.2⟩,
   (c2_threshold_clamp (some ()) thresholdEnv 5001 true false 40).2.2.2 "m"
      (by decide) (by decide) (by decide)
      (by rw [← pyMax_eq_max]; decide) (by decide)⟩

/-- A settlement run that reaches the closed-status gate: status `C`, a
nonzero open value of 5, and an existing rebate credit memo 900000001. -/
def closedStatusEnv : VBO2.Env :=
  { sampleSettleEnv with agreementStatus := "C", openValue := 5, openAccruals := 3 }

/-- C1 (counterexample): the claim says a settlement run that discovers a
nonzero open value never carries a document number; but when the agreement
status is `C` the code surfaces the existing credit memo as
`document_number` even though the discovered open value is 5 ≠ 0 (the
status gate runs before the value gate). -/
theorem c1_counterexample :
    (VBO2.settle_agreement (some ()) closedStatusEnv 77 1 false false).map
        (fun r => (r.open_value, r.document_number, r.document_type, r.message_type)) =
      Except.ok (some 5, some 900000001, some "credit_memo", some "E") := by
  decide

/-- C1 (amended): when a settlement run passes the locate step with Info
and the agreement status is neither `C` nor `D`, a nonzero discovered open
value makes `settle_agreement` return with `document_number = None` and
`message_type = "E"` (the value-gate abort), producing no document. -/
theorem c1_amended (env : VBO2.Env) (num : Int) (t : Rat) (a b : Bool) (m : String)
    (hf : VBO2.find env a b = Except.ok (.pair "I" m))
    (hC : env.agreementStatus ≠ "C") (hD : env.agreementStatus ≠ "D")
    (hv : env.openValue ≠ 0) :
    VBO2.settle_agreement (some ()) env num t a b =
      Except.ok { open_value := some env.openValue, open_accruals := some env.openAccruals,
                  document_number := none, document_type := none,
                  message := some "Could not settle the agreement! Open value is not 0 EUR.",
                  message_type := some "E" } := by
  unfold VBO2.settle_agreement
  rw [hf]
  unfold VBO2.settle_after_find VBO2.settle_core
  simp [hC, hD, hv]

/-- A settlement run with a nonzero open value on an otherwise open
agreement. -/
def openValueEnv : VBO2.Env :=
  { sampleSettleEnv with openValue := 7, openAccruals := 2 }

/-- C1 (witness): the amended claim applied at a run whose discovered open
value is 7. -/
theorem c1_amended_witness :
    VBO2.settle_agreement (some ()) openValueEnv 9 2 false false =
      Except.ok { open_value := some 7, open_accruals := some 2,
                  document_number := none, document_type := none,
                  message := some "Could not settle the agreement! Open value is not 0 EUR.",
                  message_type := some "E" } :=
  c1_amended openValueEnv 9 2 false false "Agreement found and opened."
    (by decide) (by decide) (by decide) (by decide)

theorem settle_core_memo_request_info (env : VBO2.Env) (th : Rat) (mt m : String)
    (r : VBO2.SettlementResult)
    (h : VBO2.settle_core env th mt m = Except.ok r)
    (hd : r.document_type = some "memo_request") :
    r.message_type = some "I" := by
  unfold VBO2.settle_core at h
  repeat' split at h
  all_goals
    first
    | (injection h with h2
       subst h2
       simp_all)
    | cases h

/-- C3: every result returned by `settle_agreement` satisfies the
invariant that `document_type = "memo_request"` forces
`message_type = "I"`: no Warning- or Error-classified result ever carries
a credit-memo-request document type, over every session state, every
environment and all arguments. -/
theorem c3_memo_request_implies_info (st : Option Unit) (env : VBO2.Env) (num : Int)
    (t : Rat) (a b : Bool) (r : VBO2.SettlementResult)
    (h : VBO2.settle_agreement st env num t a b = Except.ok r)
    (hd : r.document_type = some "memo_request") :
    r.message_type = some "I" := by
  unfold VBO2.settle_agreement at h
  repeat' split at h
  all_goals
    first
    | cases h
    | (unfold VBO2.settle_after_find at h
       exact settle_core_memo_request_info _ _ _ _ _ h hd)

/-- C3 (witness): the invariant applied at a concrete successful
settlement producing credit memo request 900000123. -/
theorem c3_memo_request_implies_info_witness :
    VBO2.SettlementResult.message_type
      { open_value := some 0, open_accruals := some 0,
        document_number := some 900000123, document_type := some "memo_request",
        message := some "Agreement successfully settled.", message_type := some "I" }
      = some "I" :=
  c3_memo_request_implies_info (some ()) sampleSettleEnv 5001 40 true false
    { open_value := some 0, open_accruals := some 0,
      document_number := some 900000123, document_type := some "memo_request",
      message := some "Agreement successfully settled.", message_type := some "I" }
    (by decide) (by decide)

theorem lookup_write_self (s : Controller.Store) (n : Nat) (r : Controller.BatchRecord) :
    (Controller.write s n r).lookup n = some r := by
  unfold Controller.write
  simp [List.lookup]

/-- C5: round-trip through the batch store — a batch record created by
`_create_batch_file` and then appended to with credit memo numbers 100 and
200 by `_update_batch_data` is reloaded by `load_data_batches`, under its
filename stem, as exactly the ordered list `[100, 200]` with the country
and company code it was created with. -/
theorem c5_batch_roundtrip (store : Controller.Store) (country cocd : String) (i : Nat)
    (s1 s2 s3 : Controller.Store)
    (h1 : Controller.create_batch_file store country cocd = (i, s1))
    (h2 : Controller.update_batch_data s1 i 100 = Except.ok s2)
    (h3 : Controller.update_batch_data s2 i 200 = Except.ok s3) :
    (Controller.load_data_batches s3).lookup (Controller.batch_name i) =
      some { country := country, company_code := cocd, credit_memos := [100, 200] } := by
  unfold Controller.create_batch_file at h1
  injection h1 with hi hs1
  subst hi
  subst hs1
  unfold Controller.update_batch_data at h2
  rw [lookup_write_self] at h2
  injection h2 with hs2
  subst hs2
  unfold Controller.update_batch_data at h3
  rw [lookup_write_self] at h3
  injection h3 with hs3
  subst hs3
  unfold Controller.load_data_batches Controller.write
  simp [List.lookup]

/-- C5 (witness): the round-trip applied to an initially empty batch
directory. -/
theorem c5_batch_roundtrip_witness :
    (Controller.load_data_batches
        [(1, { country := "Slovakia", company_code := "0001", credit_memos := [100, 200] })]).lookup
      (Controller.batch_name 1) =
      some { country := "Slovakia", company_code := "0001", credit_memos := [100, 200] } :=
  c5_batch_roundtrip [] "Slovakia" "0001" 1
    [(1, { country := "Slovakia", company_code := "0001", credit_memos := [] })]
    [(1, { country := "Slovakia", company_code := "0001", credit_memos := [100] })]
    [(1, { country := "Slovakia", company_code := "0001", credit_memos := [100, 200] })]
    (by decide) (by decide) (by decide)

theorem isfile_le_maxKey (s : Controller.Store) (n : Nat)
    (h : Controller.isfile s n = true) : n ≤ Controller.maxKey s := by
  induction s with
  | nil => simp [Controller.isfile, List.lookup] at h
  | cons p rest ih =>
    unfold Controller.isfile at h ih
    unfold Controller.maxKey at ih ⊢
    by_cases hp : n = p.1
    · simp [List.foldr, hp]
    · rw [List.lookup] at h
      rw [show (n == p.1) = false from beq_eq_false_iff_ne.mpr hp] at h
      simp only [List.foldr]
      exact le_trans (ih h) (le_max_right _ _)

theorem ffg_ge (s : Controller.Store) (fuel : Nat) :
    ∀ n : Nat, n ≤ Controller.first_free_go s fuel n := by
  induction fuel with
  | zero => intro n; exact le_refl n
  | succ fuel ih =>
    intro n
    unfold Controller.first_free_go
    by_cases hf : Controller.isfile s n
    · simp only [hf, if_true]
      exact le_trans (Nat.le_succ n) (ih (n + 1))
    · simp [hf]

theorem ffg_min (s : Controller.Store) (fuel : Nat) :
    ∀ n j : Nat, n ≤ j → j < Controller.first_free_go s fuel n →
      Controller.isfile s j = true := by
  induction fuel with
  | zero =>
    intro n j hnj hlt
    unfold Controller.first_free_go at hlt
    omega
  | succ fuel ih =>
    intro n j hnj hlt
    unfold Controller.first_free_go at hlt
    by_cases hf : Controller.isfile s n
    · simp only [hf, if_true] at hlt
      rcases Nat.eq_or_lt_of_le hnj with heq | hlt2
      · rwa [← heq]
      · exact ih (n + 1) j hlt2 hlt
    · simp [hf] at hlt
      omega

theorem ffg_free (s : Controller.Store) (fuel : Nat) :
    ∀ n : Nat, Controller.maxKey s + 1 ≤ fuel + n →
      Controller.isfile s (Controller.first_free_go s fuel n) = false := by
  induction fuel with
  | zero =>
    intro n hn
    unfold Controller.first_free_go
    by_cases hf : Controller.isfile s n
    · have := isfile_le_maxKey s n hf
      omega
    · simpa using hf
  | succ fuel ih =>
    intro n hn
    unfold Controller.first_free_go
    by_cases hf : Controller.isfile s n
    · simp only [hf, if_true]
      exact ih (n + 1) (by omega)
    · simp [hf]

theorem lookup_filter_ne (s : Controller.Store) (n m : Nat) (h : m ≠ n) :
    (s.filter (fun p => p.1 ≠ n)).lookup m = s.lookup m := by
  induction s with
  | nil => rfl
  | cons p rest ih =>
    rw [List.filter_cons]
    by_cases hp : p.1 = n
    · rw [if_neg (by simp [hp])]
      rw [ih]
      have h1 : (m == p.1) = false := beq_eq_false_iff_ne.mpr (by omega)
      rw [List.lookup, h1]
    · rw [if_pos (by simp [hp])]
      rw [List.lookup, List.lookup]
      by_cases hmp : m = p.1
      · rw [show (m == p.1) = true from beq_iff_eq.mpr hmp]
      · rw [show (m == p.1) = false from beq_eq_false_iff_ne.mpr hmp]
        exact ih

theorem isfile_write (s : Controller.Store) (n : Nat) (r : Controller.BatchRecord) (m : Nat) :
    Controller.isfile (Controller.write s n r) m = (m == n || Controller.isfile s m) := by
  unfold Controller.isfile Controller.write
  by_cases hm : m = n
  · subst hm
    simp [List.lookup]
  · have hb : (m == n) = false := beq_eq_false_iff_ne.mpr hm
    rw [List.lookup, hb, lookup_filter_ne s n m hm]
    simp

/-- C6 (counterexample): the claim says every id returned by
`_create_batch_file` is strictly greater than all ids of records created
earlier (no reuse); but after the finalization runner deletes batch file 1,
the next creation scans from 1 again and reuses id 1, which is not greater
than the previously created id 2. -/
theorem c6_counterexample :
    (Controller.create_batch_file [] "SK" "0001").1 = 1
    ∧ (Controller.create_batch_file
        (Controller.create_batch_file [] "SK" "0001").2 "SK" "0001").1 = 2
    ∧ (Controller.create_batch_file
        (Controller.remove_data_batch
          (Controller.create_batch_file
            (Controller.create_batch_file [] "SK" "0001").2 "SK" "0001").2
          (Controller.batch_name 1)).1 "SK" "0001").1 = 1
    ∧ ¬ ((Controller.create_batch_file
        (Controller.remove_data_batch
          (Controller.create_batch_file
            (Controller.create_batch_file [] "SK" "0001").2 "SK" "0001").2
          (Controller.batch_name 1)).1 "SK" "0001").1 >
        (Controller.create_batch_file
          (Controller.create_batch_file [] "SK" "0001").2 "SK" "0001").1) := by
  decide

/-- C6 (amended): `_create_batch_file` always returns the smallest positive
integer id for which no batch file exists (the id is at least 1, unused,
and every smaller positive id is in use), and ids strictly increase across
consecutive creations as long as no batch file is removed in between;
after a deletion a freed id can be reused. -/
theorem c6_amended (s : Controller.Store) (c cc c2 cc2 : String) :
    1 ≤ (Controller.create_batch_file s c cc).1
    ∧ Controller.isfile s (Controller.create_batch_file s c cc).1 = false
    ∧ (∀ m : Nat, 1 ≤ m → m < (Controller.create_batch_file s c cc).1 →
        Controller.isfile s m = true)
    ∧ (Controller.create_batch_file s c cc).1 <
        (Controller.create_batch_file (Controller.create_batch_file s c cc).2 c2 cc2).1 := by
  refine ⟨ffg_ge s _ 1, ffg_free s _ 1 (by omega),
    fun m h1 h2 => ffg_min s _ 1 m h1 h2, ?_⟩
  change Controller.first_free_go s (Controller.maxKey s + 1) 1 <
    Controller.first_free_go
      (Controller.write s (Controller.first_free_go s (Controller.maxKey s + 1) 1)
        { country := c, company_code := cc, credit_memos := [] })
      (Controller.maxKey
        (Controller.write s (Controller.first_free_go s (Controller.maxKey s + 1) 1)
          { country := c, company_code := cc, credit_memos := [] }) + 1) 1
  set n1 := Controller.first_free_go s (Controller.maxKey s + 1) 1 with hn1
  set s1 := Controller.write s n1 { country := c, company_code := cc, credit_memos := [] }
    with hs1
  set n2 := Controller.first_free_go s1 (Controller.maxKey s1 + 1) 1 with hn2
  have hfree2 : Controller.isfile s1 n2 = false := ffg_free s1 _ 1 (by omega)
  have hge2 : 1 ≤ n2 := ffg_ge s1 _ 1
  by_contra hcon
  push_neg at hcon
  have htrue : Controller.isfile s1 n2 = true := by
    rcases Nat.eq_or_lt_of_le hcon with heq | hlt
    · rw [hs1, isfile_write, heq]
      simp
    · rw [hs1, isfile_write, ffg_min s (Controller.maxKey s + 1) 1 n2 hge2 (hn1 ▸ hlt)]
      simp
  rw [htrue] at hfree2
  cases hfree2

/-- C6 (witness): the least-unused characterization applied at a directory
holding batch files 1 and 2, where the next id is 3 and id 2 is indeed in
use. -/
theorem c6_amended_witness :
    Controller.isfile
      [(1, { country := "SK", company_code := "0001", credit_memos := [] }),
       (2, { country := "SK", company_code := "0001", credit_memos := [100] })] 2 = true :=
  (c6_amended
    [(1, { country := "SK", company_code := "0001", credit_memos := [] }),
     (2, { country := "SK", company_code := "0001", credit_memos := [100] })]
    "SK" "0001" "SK" "0001").2.2.1 2 (by decide) (by decide)

/-- C4: in the orchestrator's per-item loop, when settlement returns a
credit-memo-request document number `d` and the order amendment
(`va02.change_sales_order`) raises any exception, the exception is caught:
the item's message becomes the settlement message with the amendment error
text appended, the run is not aborted (the block returns `ok`, with both
sessions closed), and `d` is still appended to the run's batch record. -/
theorem c4_amendment_failure_contained (vbo2St va02St : Option Unit)
    (env : Controller.ItemEnv) (agt : Int) (t : Rat)
    (approvers : List String) (att : String) (batch_idx : Nat) (store : Controller.Store)
    (rec : Controller.BatchRecord) (r : VBO2.SettlementResult) (d : Int) (m : String)
    (exc : PyError)
    (h1 : VBO2.settle_agreement (some ()) env.vbo2 agt t true false = Except.ok r)
    (h2 : r.document_number = some d)
    (h3 : r.document_type = some "memo_request")
    (h4 : r.message = some m)
    (h5 : VA02.change_sales_order (some ()) env.va02 d (some false) (some approvers) (some att)
          = Except.error exc)
    (h6 : store.lookup batch_idx = some rec) :
    Controller.process_item (some ()) vbo2St va02St env agt t approvers att batch_idx store =
      Except.ok (none, none,
        { Agreement := agt, Open_Value := r.open_value, Open_Accruals := r.open_accruals,
          Credit_Memo := some d,
          Message := some (m ++ "Error changing the sales order! " ++ pyMsg exc) },
        Controller.write store batch_idx
          { rec with credit_memos := rec.credit_memos ++ [d] }) := by
  have hstart : VBO2.start vbo2St (some ()) = Except.ok (some ()) := by
    cases vbo2St with
    | none => rfl
    | some u => cases u; rfl
  have hstart2 : VA02.start va02St (some ()) = Except.ok (some ()) := by
    cases va02St with
    | none => rfl
    | some u => cases u; rfl
  unfold Controller.process_item
  simp only [hstart, h1, h2, h3, hstart2, h5, h4, VBO2.close, VA02.close,
    Controller.update_batch_data, h6]
  simp

/-- The batch record a fresh orchestrator run creates before iterating. -/
def emptyBatchRec : Controller.BatchRecord :=
  { country := "Slovakia", company_code := "0001", credit_memos := [] }

/-- C4 (witness): the containment theorem applied at a concrete run where
settlement creates request 900000123 and the amendment fails with a
missing-authorization error. -/
theorem c4_amendment_failure_contained_witness :
    Controller.process_item (some ()) none none
        { vbo2 := sampleSettleEnv, va02 := authFailVA02Env } 5001 40
        ["12345678", "87654321"] "approval.pdf" 1 [(1, emptyBatchRec)] =
      Except.ok (none, none,
        { Agreement := 5001, Open_Value := some 0, Open_Accruals := some 0,
          Credit_Memo := some 900000123,
          Message := some ("Agreement successfully settled." ++
            "Error changing the sales order! " ++
            pyMsg (PyError.authorizationMissing
              "No authorization for maintaining sales document 900000123")) },
        Controller.write [(1, emptyBatchRec)] 1
          { emptyBatchRec with credit_memos := emptyBatchRec.credit_memos ++ [900000123] }) :=
  c4_amendment_failure_contained none none
    { vbo2 := sampleSettleEnv, va02 := authFailVA02Env } 5001 40
    ["12345678", "87654321"] "approval.pdf" 1 [(1, emptyBatchRec)] emptyBatchRec
    { open_value := some 0, open_accruals := some 0, document_number := some 900000123,
      document_type := some "memo_request", message := some "Agreement successfully settled.",
      message_type := some "I" }
    900000123 "Agreement successfully settled."
    (PyError.authorizationMissing "No authorization for maintaining sales document 900000123")
    (by decide) (by decide) (by decide) (by decide) (by decide) (by decide)

theorem process_workflow_no_match (st : Option Unit) (items : List SO01.Row) (kwd : String)
    (h : ∀ row ∈ items, pyIn kwd (SO01.effTitle row) = false) :
    SO01.process_workflow st items kwd = Except.ok false := by
  induction items with
  | nil => rfl
  | cons row rest ih =>
    unfold SO01.process_workflow
    have hr := h row (by simp)
    simp only [hr]
    simp only [Bool.false_eq_true, not_false_eq_true, if_true]
    exact ih (fun r hr2 => h r (by simp [hr2]))

theorem finalize_workflow_not_found (items : List SO01.Row) (num : Int)
    (rec : Controller.BatchRecord) (hm : rec.credit_memos = [num])
    (hn : ∀ row ∈ items, pyIn (toString num) (SO01.effTitle row) = false) :
    Controller.finalize_workflow none (some ()) items rec.credit_memos =
      Except.ok (none,
        ⟨.info, "Starting SO01 ..."⟩ :: ⟨.info, "SO01 running."⟩ ::
          ([⟨.info, "Processing workflow item (" ++ toString 1 ++ " of " ++
              toString [num].length ++ ") related to order: " ++ toString num ++ " ..."⟩,
            ⟨.error, "Workflow item not found using key: \x27" ++ toString num ++ "\x27!"⟩]
            ++ [⟨.info, "Closing SO01 ..."⟩, ⟨.info, "SO01 closed."⟩])) := by
  rw [hm]
  simp only [Controller.finalize_workflow, SO01.start, SO01.get_item_table,
    Controller.process_nums, Option.isSome_some, Option.isSome_none, SO01.close]
  simp only [Bool.false_eq_true, if_false, Option.isNone_some, reduceCtorEq, reduceIte]
  rw [process_workflow_no_match (some ()) items (toString num) hn]

/-- C9 (counterexample): the claim says the not-found condition is logged
as a warning; the code logs it with `log.error`.  In a concrete run over a
batch holding credit memo 777 with an empty workflow list, the emitted
trace contains the ERROR-level "Workflow item not found" line and no
warning-level line at all (the record is still deleted and the run
succeeds). -/
theorem c9_counterexample :
    (Controller.svcRun (some ()) []
        [("batch_001", { country := "Slovakia", company_code := "0001", credit_memos := [777] })]
        [(1, { country := "Slovakia", company_code := "0001", credit_memos := [777] })]).1 = []
    ∧ LogEntry.mk .error ("Workflow item not found using key: \x27777\x27!")
        ∈ (Controller.svcRun (some ()) []
            [("batch_001", { country := "Slovakia", company_code := "0001", credit_memos := [777] })]
            [(1, { country := "Slovakia", company_code := "0001", credit_memos := [777] })]).2.1
    ∧ (Controller.svcRun (some ()) []
        [("batch_001", { country := "Slovakia", company_code := "0001", credit_memos := [777] })]
        [(1, { country := "Slovakia", company_code := "0001", credit_memos := [777] })]).2.1.all
        (fun e => e.level ≠ LogLevel.warning) = true
    ∧ (Controller.svcRun (some ()) []
        [("batch_001", { country := "Slovakia", company_code := "0001", credit_memos := [777] })]
        [(1, { country := "Slovakia", company_code := "0001", credit_memos := [777] })]).2.2
        = none := by
  decide

/-- C9 (amended): finalizing a batch record whose credit memo number
matches no workflow-list row title makes `process_workflow` return false,
logs the not-found condition at ERROR level (not warning), continues the
runner (same final store and same termination status as processing the
remaining batches), and still deletes the batch record before moving on. -/
theorem c9_amended (items : List SO01.Row) (name : String) (rec : Controller.BatchRecord)
    (num : Int) (rest : List (String × Controller.BatchRecord)) (store : Controller.Store)
    (hm : rec.credit_memos = [num])
    (hn : ∀ row ∈ items, pyIn (toString num) (SO01.effTitle row) = false) :
    SO01.process_workflow (some ()) items (toString num) = Except.ok false
    ∧ (Controller.svcRun (some ()) items ((name, rec) :: rest) store).1 =
        (Controller.svcRun (some ()) items rest
          (Controller.remove_data_batch store name).1).1
    ∧ (Controller.svcRun (some ()) items ((name, rec) :: rest) store).2.2 =
        (Controller.svcRun (some ()) items rest
          (Controller.remove_data_batch store name).1).2.2
    ∧ LogEntry.mk .error ("Workflow item not found using key: \x27" ++ toString num ++ "\x27!")
        ∈ (Controller.svcRun (some ()) items ((name, rec) :: rest) store).2.1 := by
  have hfin := finalize_workflow_not_found items num rec hm hn
  have hstep : Controller.svcRun (some ()) items ((name, rec) :: rest) store =
      ((Controller.svcRun (some ()) items rest (Controller.remove_data_batch store name).1).1,
       ⟨.info, "=== Processing data batch \x27" ++ name ++ "\x27 ==="⟩ ::
         ((⟨.info, "Starting SO01 ..."⟩ :: ⟨.info, "SO01 running."⟩ ::
            ([⟨.info, "Processing workflow item (" ++ toString 1 ++ " of " ++
                toString [num].length ++ ") related to order: " ++ toString num ++ " ..."⟩,
              ⟨.error, "Workflow item not found using key: \x27" ++ toString num ++ "\x27!"⟩]
              ++ [⟨.info, "Closing SO01 ..."⟩, ⟨.info, "SO01 closed."⟩])) ++
          ((Controller.remove_data_batch store name).2 ++
            ⟨.info, "=== Data batch processed ==="⟩ ::
              (Controller.svcRun (some ()) items rest
                (Controller.remove_data_batch store name).1).2.1)),
       (Controller.svcRun (some ()) items rest
         (Controller.remove_data_batch store name).1).2.2) := by
    conv_lhs => rw [Controller.svcRun]
    rw [hfin]
    rfl
  refine ⟨process_workflow_no_match (some ()) items (toString num) hn, ?_, ?_, ?_⟩
  · rw [hstep]
  · rw [hstep]
  · rw [hstep]
    simp

/-- C9 (witness): the amended claim applied to a single batch holding
credit memo 777 and an empty workflow list. -/
theorem c9_amended_witness :
    SO01.process_workflow (some ()) [] (toString (777 : Int)) = Except.ok false
    ∧ (Controller.svcRun (some ()) []
        [("batch_001", { country := "Slovakia", company_code := "0001", credit_memos := [777] })]
        [(1, { country := "Slovakia", company_code := "0001", credit_memos := [777] })]).1 =
      (Controller.svcRun (some ()) [] []
        (Controller.remove_data_batch
          [(1, { country := "Slovakia", company_code := "0001", credit_memos := [777] })]
          "batch_001").1).1 :=
  ⟨(c9_amended [] "batch_001"
      { country := "Slovakia", company_code := "0001", credit_memos := [777] } 777 []
      [(1, { country := "Slovakia", company_code := "0001", credit_memos := [777] })]
      (by decide) (by simp)).1,
   (c9_amended [] "batch_001"
      { country := "Slovakia", company_code := "0001", credit_memos := [777] } 777 []
      [(1, { country := "Slovakia", company_code := "0001", credit_memos := [777] })]
      (by decide) (by simp)).2.1⟩

/-- A settlement run that hits the "is not current" dialog, after which
(as `_go_to_start_window` restarts the transaction) the active window is
the non-modal main window. -/
def notCurrentEnv : VBO2.Env :=
  { sampleSettleEnv with notCurrent := true, notCurrentWindow := none }

/-- The same run but with some modal still open when `_find` re-reads the
active window, so the bare string return reaches the tuple unpacking. -/
def notCurrentEnvModal : VBO2.Env :=
  { sampleSettleEnv with
      notCurrent := true
      notCurrentWindow := some "Sales volumes of agreement 5001 are not current." }

/-- A settlement run whose locate step shows the "is marked for deletion"
dialog. -/
def markedEnv : VBO2.Env :=
  { sampleSettleEnv with markedForDeletion := true }

/-- C10: the orchestrator does run settlement with
`accept_inactive_accs = True` and `accept_outdated_vols = False`, and a
"marked for deletion" dialog is dismissed and processing proceeds (last
two conjuncts); but an "is not current" dialog does not cause a graceful
early per-item exit: `_find` returns a bare string instead of a
`(type, message)` tuple, so the per-item block raises — an
`AssertionError` from `_get_dialog_text` on the non-modal start window,
or a `ValueError` from unpacking the dialog text — and the controller's
outer handler aborts the whole run (first two conjuncts). -/
theorem c10_outdated_volumes_bug :
    Controller.process_item (some ()) none none
        { vbo2 := notCurrentEnv, va02 := plainVA02Env } 5001 40
        ["12345678", "87654321"] "approval.pdf" 1 [(1, emptyBatchRec)]
      = Except.error (PyError.runtimeError
          ("Unhandled exception: " ++ pyMsg PyError.assertionError))
    ∧ Controller.process_item (some ()) none none
        { vbo2 := notCurrentEnvModal, va02 := plainVA02Env } 5001 40
        ["12345678", "87654321"] "approval.pdf" 1 [(1, emptyBatchRec)]
      = Except.error (PyError.runtimeError
          ("Unhandled exception: " ++ "too many values to unpack (expected 2)"))
    ∧ VBO2.find markedEnv true false =
        Except.ok (.pair "I" "Agreement found and opened.")
    ∧ VBO2.settle_agreement (some ()) markedEnv 5001 40 true false =
        Except.ok { open_value := some 0, open_accruals := some 0,
                    document_number := some 900000123, document_type := some "memo_request",
                    message := some "Agreement successfully settled.",
                    message_type := some "I" } := by
  decide
